import Mathlib

set_option maxRecDepth 10000

/- Shallow embedding of src/src/robotremoteserver.py (class RobotRemoteServer,
   Python 2).

   Modelling conventions:
   - Python 2 has two string types: `str` (a byte string) and `unicode` (a
     code-point string).  Both are modelled as `List Nat` of byte / code-point
     values, distinguished by the `PyStr`/`PyVal` constructor wrapping them.
   - Python values that can cross the XML-RPC boundary or be produced by a
     keyword are modelled by the inductive `PyVal`.  Floating point scalars are
     not modelled; they take the same pass-through branch as integers in
     `_handle_return_value` (line 195 of the source).
   - Fallible code is modelled with `Except`: a `.error` value is a raised
     Python exception escaping the modelled function.
   - The server object state relevant to the claims (`_allow_stop`,
     `_shutdown`) is the explicit record `ServerState`; the process-wide
     `sys.stdout` slot is the explicit `StdoutTarget` threaded through
     `run_keyword`. -/

/-- Code points of a Lean string literal, used to write Python string
constants. -/
def s2c (s : String) : List Nat := s.data.map Char.toNat

/-- Line 34: `BINARY = re.compile('[\x00-\x08\x0B\x0C\x0E-\x1F]')` —
membership of one byte / code point in the control-byte class. -/
def isCtl (b : Nat) : Bool :=
  b ≤ 8 || b == 11 || b == 12 || (14 ≤ b && b ≤ 31)

/-- `BINARY.search(s)` succeeds iff some character of `s` is in the class. -/
def hasBinary (s : List Nat) : Bool := s.any isCtl

/-- `unicode(bs, errors='replace')`: Python 2 decodes a `str` with the ASCII
codec, substituting U+FFFD for every byte outside the ASCII range. -/
def decodeReplace (bs : List Nat) : List Nat :=
  bs.map (fun b => if b < 128 then b else 65533)

/-- A Python 2 `basestring`: either a `str` (bytes) or a `unicode` value. -/
inductive PyStr : Type where
  | str : List Nat → PyStr
  | unicode : List Nat → PyStr
deriving DecidableEq

/-- A Python value as far as the remote server manipulates them.  `binary` is
an `xmlrpclib.Binary` wrapper, `obj` an arbitrary non-iterable object whose
`unicode()` text representation is the carried list, `none` is `None`. -/
inductive PyVal : Type where
  | str : List Nat → PyVal
  | unicode : List Nat → PyVal
  | bool : Bool → PyVal
  | int : Int → PyVal
  | none : PyVal
  | binary : List Nat → PyVal
  | obj : List Nat → PyVal
  | list : List PyVal → PyVal
  | dict : List (PyVal × PyVal) → PyVal

/-- Lines 205-217, `_handle_binary_result(result)`.  `result` is a
`basestring`.  If `BINARY` does not match, a `str` is permissively decoded to
`unicode` and a `unicode` value is returned unchanged.  If `BINARY` matches,
`str(result)` re-encodes: on a `str` this is the identity; on a `unicode` it
ASCII-encodes and raises `UnicodeError` when a code point is outside ASCII,
which the function converts to `ValueError` (the raised message models
`"Cannot represent %r as binary."` with `%r` carrying the offending text). -/
def valueErrorMsg (cs : List Nat) : List Nat :=
  s2c "Cannot represent " ++ cs ++ s2c " as binary."

def _handle_binary_result (result : PyStr) : Except (List Nat) PyVal :=
  match result with
  | .str bs =>
      if !hasBinary bs then .ok (.unicode (decodeReplace bs))
      else .ok (.binary bs)
  | .unicode cs =>
      if !hasBinary cs then .ok (.unicode cs)
      else if cs.all (fun c => c < 128) then .ok (.binary cs)
      else .error (valueErrorMsg cs)

/-- Lines 123-124: `arg if not isinstance(arg, Binary) else str(arg)`.
`str` of an `xmlrpclib.Binary` yields the wrapped byte string. -/
def _handle_binary_arg (arg : PyVal) : PyVal :=
  match arg with
  | .binary bs => .str bs
  | v => v

/-- Lines 118-121: decode every positional and named argument. -/
def _handle_binary_args (args : List PyVal) (kwargs : List (List Nat × PyVal)) :
    List PyVal × List (List Nat × PyVal) :=
  (args.map _handle_binary_arg,
   kwargs.map (fun kv => (kv.1, _handle_binary_arg kv.2)))

/-- Python truth-value testing, as used by `if not message` (line 171).
An `xmlrpclib.Binary` instance defines neither `__len__` nor `__nonzero__`
and is therefore always truthy. -/
def pyFalsy : PyVal → Bool
  | .str bs => bs.isEmpty
  | .unicode cs => cs.isEmpty
  | .binary _ => false
  | .none => true
  | .bool b => !b
  | .int n => n == 0
  | .list l => l.isEmpty
  | .dict d => d.isEmpty
  | .obj _ => false

/-- `unicode(item)` for the values that can reach it inside `_str`
(line 223): only non-`basestring` values arrive there, and only hashable
values occur as dict keys.  The `str`/`unicode`/container rows are therefore
unreachable in faithful runs and are given harmless representations. -/
def pyUnicode : PyVal → List Nat
  | .bool b => if b then s2c "True" else s2c "False"
  | .int n => s2c (toString n)
  | .none => s2c "None"
  | .obj r => r
  | .str bs => bs
  | .unicode cs => cs
  | .binary bs => bs
  | .list _ => s2c "<unhashable>"
  | .dict _ => s2c "<unhashable>"

/-- Lines 219-224, `_str(item)`.  `None` becomes the empty `str` literal
directly (line 221, not passing through `_handle_binary_result`); a
`basestring` goes through the binary-safety check as it is; anything else is
converted with `unicode(item)` first.  For an `xmlrpclib.Binary` value,
`unicode(item)` calls `__str__` and then strictly ASCII-decodes the bytes,
raising `UnicodeDecodeError` (uncaught) if some byte is outside ASCII. -/
def _str (item : PyVal) : Except (List Nat) PyVal :=
  match item with
  | .none => .ok (.str [])
  | .str bs => _handle_binary_result (.str bs)
  | .unicode cs => _handle_binary_result (.unicode cs)
  | .binary bs =>
      if bs.all (fun b => b < 128) then _handle_binary_result (.unicode bs)
      else .error (s2c "UnicodeDecodeError")
  | v => _handle_binary_result (.unicode (pyUnicode v))

/- Lines 192-203, `_handle_return_value(ret)`, with its two helper
recursions for list elements and dict items.  Branch order follows the
source: `basestring` first; then `(int, long, float)` — in Python 2 `bool`
is a subclass of `int`, so booleans take this pass-through branch; then
`Mapping`; then generic iteration; a `TypeError` from iterating a
non-iterable value falls back to `_str(ret)`. -/
mutual
def _handle_return_value : PyVal → Except (List Nat) PyVal
  | .str bs => _handle_binary_result (.str bs)
  | .unicode cs => _handle_binary_result (.unicode cs)
  | .bool b => .ok (.bool b)
  | .int n => .ok (.int n)
  | .dict kvs =>
      match hrvDict kvs with
      | .ok rs => .ok (.dict rs)
      | .error m => .error m
  | .list items =>
      match hrvList items with
      | .ok rs => .ok (.list rs)
      | .error m => .error m
  | .none => _str .none
  | .obj r => _str (.obj r)
  | .binary bs => _str (.binary bs)

def hrvList : List PyVal → Except (List Nat) (List PyVal)
  | [] => .ok []
  | v :: rest =>
      match _handle_return_value v with
      | .error m => .error m
      | .ok r =>
          match hrvList rest with
          | .error m => .error m
          | .ok rs => .ok (r :: rs)

def hrvDict : List (PyVal × PyVal) → Except (List Nat) (List (PyVal × PyVal))
  | [] => .ok []
  | (k, v) :: rest =>
      match _str k with
      | .error m => .error m
      | .ok k2 =>
          match _handle_return_value v with
          | .error m => .error m
          | .ok r =>
              match hrvDict rest with
              | .error m => .error m
              | .ok rs => .ok ((k2, r) :: rs)
end

/-- The exact dynamic type of a raised Python exception.  Tuple membership
tests such as `exc_type in self._generic_exceptions` compare class identity,
so a subclass of a listed class is represented by `custom` with its own
name. -/
inductive ExcType : Type where
  | assertionError
  | runtimeError
  | exception
  | systemExit
  | keyboardInterrupt
  | typeError
  | custom : List Nat → ExcType
deriving DecidableEq

/-- `exc_type.__name__` (line 169). -/
def excName : ExcType → List Nat
  | .assertionError => s2c "AssertionError"
  | .runtimeError => s2c "RuntimeError"
  | .exception => s2c "Exception"
  | .systemExit => s2c "SystemExit"
  | .keyboardInterrupt => s2c "KeyboardInterrupt"
  | .typeError => s2c "TypeError"
  | .custom n => n

/-- Line 39: `_generic_exceptions = (AssertionError, RuntimeError, Exception)`,
used with exact-class tuple membership at line 173. -/
def isGeneric (t : ExcType) : Bool :=
  t == .assertionError || t == .runtimeError || t == .exception

/-- Line 40: `_fatal_exceptions = (SystemExit, KeyboardInterrupt)`, used with
exact-class tuple membership at line 162. -/
def isFatal (t : ExcType) : Bool :=
  t == .systemExit || t == .keyboardInterrupt

/-- A raised Python exception: its exact class, its `unicode(value)` message
text, and the `traceback.format_list`-formatted entries of its traceback.
The first entry belongs to the engine frame that issued the call (line 187:
the latest entry originates from `RobotRemoteServer` itself). -/
structure PyExc : Type where
  kind : ExcType
  msg : List Nat
  tb : List (List Nat)
deriving DecidableEq

/-- Lines 177-184, `_get_message_from_exception(value)`.  The successful
`unicode(value)` path is modelled; the `UnicodeError` fallback joining
`value.args` with replacement characters is folded into `msg` being the
already-extracted text. -/
def _get_message_from_exception (msg : List Nat) : Except (List Nat) PyVal :=
  _handle_binary_result (.unicode msg)

/-- `'%s: %s' % (name, message)` (line 175): `name` is a `str`; a `unicode`
operand promotes the result to `unicode`, while for an `xmlrpclib.Binary`
operand `%s` inserts `str(message)`, its raw bytes, keeping a `str`. -/
def fmtNameMsg (name : List Nat) (message : PyVal) : PyVal :=
  match message with
  | .unicode cs => .unicode (name ++ s2c ": " ++ cs)
  | .binary bs => .str (name ++ s2c ": " ++ bs)
  | .str bs => .str (name ++ s2c ": " ++ bs)
  | v => .str (name ++ s2c ": " ++ pyUnicode v)

/-- Lines 168-175, `_get_error_message(exc_type, exc_value)`. -/
def _get_error_message (t : ExcType) (msg : List Nat) :
    Except (List Nat) PyVal :=
  match _get_message_from_exception msg with
  | .error m => .error m
  | .ok message =>
      if pyFalsy message then .ok (.str (excName t))
      else if isGeneric t then .ok message
      else .ok (fmtNameMsg (excName t) message)

/-- Lines 186-190, `_get_error_traceback(exc_tb)`: drop the engine frame,
join the remaining formatted entries, add the standard header (a `str`). -/
def _get_error_traceback (tb : List (List Nat)) : List Nat :=
  s2c "Traceback (most recent call last):\x0A" ++ (tb.drop 1).flatten

/-- Outcome of lines 160-166, `_get_error_details()`: a fatal exception
restores stdout and is re-raised; a `ValueError` escaping from message
encoding propagates; otherwise the `(error, traceback)` pair is returned. -/
inductive ErrDetailsOut : Type where
  | reraise
  | encFail : List Nat → ErrDetailsOut
  | details : PyVal → List Nat → ErrDetailsOut

def _get_error_details (e : PyExc) : ErrDetailsOut :=
  if isFatal e.kind then .reraise
  else
    match _get_error_message e.kind e.msg with
    | .error m => .encFail m
    | .ok errv => .details errv (_get_error_traceback e.tb)

/-- Behaviour of one call to a routine of the backing object: the byte
string it writes to `sys.stdout` while running, and its outcome. -/
inductive KwOutcome : Type where
  | ret : PyVal → KwOutcome
  | exc : PyExc → KwOutcome

structure KwCall : Type where
  writes : List Nat
  outcome : KwOutcome

/-- A routine attribute of the backing object: its `inspect.getdoc` string
(if any) and its behaviour as a function of the (decoded) arguments. -/
structure Routine : Type where
  doc : Option (List Nat)
  call : List PyVal → List (List Nat × PyVal) → KwCall

/-- The backing object (`self._library`).  `customKwNames` is the value the
object's own `get_keyword_names`/`getKeywordNames` routine returns when the
object defines one (lines 94-97); `attrs` are its routine attributes in
`dir` order, public and private alike (non-routine attributes behave exactly
like missing ones in every modelled code path and are elided); `isModule`
is `inspect.ismodule(self._library)`; `doc` is `inspect.getdoc(library)`. -/
structure Library : Type where
  customKwNames : Option (List (List Nat))
  attrs : List (List Nat × Routine)
  isModule : Bool
  doc : Option (List Nat)

def stopName : List Nat := s2c "stop_remote_server"

/-- Line 99 condition `attr[0] != '_'` (code 95); `dir` names are never
empty in practice, and an empty name is kept here. -/
def isPublicName (n : List Nat) : Bool := n.head? != some 95

/-- The local `names` of lines 94-100: defer to the custom enumerator when
the object defines one, else list the public routine attributes. -/
def enumerated_names (lib : Library) : List (List Nat) :=
  match lib.customKwNames with
  | some names => names
  | none => (lib.attrs.map Prod.fst).filter isPublicName

/-- Lines 93-101, `get_keyword_names()`: `names + ['stop_remote_server']`. -/
def get_keyword_names (lib : Library) : List (List Nat) :=
  enumerated_names lib ++ [stopName]

/-- Lines 152-158, `_get_keyword(name)`.  `stopB` is the server's own bound
`stop_remote_server` method, returned for the reserved name before the
backing object is consulted. -/
def _get_keyword (lib : Library) (stopB : Routine) (name : List Nat) :
    Option Routine :=
  if name = stopName then some stopB
  else lib.attrs.lookup name

/-- Lines 145-150, `get_keyword_documentation(name)`.  `inspect.getdoc`
of a missing attribute or an undocumented routine yields `''` via `or ''`. -/
def get_keyword_documentation (lib : Library) (stopB : Routine)
    (name : List Nat) : List Nat :=
  if name = s2c "__intro__" then lib.doc.getD []
  else if name = s2c "__init__" && lib.isModule then []
  else
    match _get_keyword lib stopB name with
    | some kw => kw.doc.getD []
    | none => []

/-- The process-wide `sys.stdout` slot: the real console
(`sys.__stdout__`) or an interception `StringIO` buffer with its current
contents. -/
inductive StdoutTarget : Type where
  | console
  | buffer : List Nat → StdoutTarget
deriving DecidableEq

/-- Lines 226-228, `_intercept_stdout()`: the previous target is discarded
and a fresh empty buffer installed. -/
def _intercept_stdout (_ : StdoutTarget) : StdoutTarget := .buffer []

/-- Lines 230-234, `_restore_stdout()` reduced to its returned value:
`_handle_binary_result` of the captured byte string.  On a `str` input the
encoding never raises, which `restore_stdout_spec` below records. -/
def _restore_stdout (captured : List Nat) : PyVal :=
  if hasBinary captured then .binary captured
  else .unicode (decodeReplace captured)

/-- The result dict built by `run_keyword` (line 105 and following). -/
structure KwResult : Type where
  status : List Nat
  ret : PyVal
  output : PyVal
  error : PyVal
  traceback : PyVal

/-- An exception escaping `run_keyword` itself: a re-raised fatal exception,
or a `ValueError`/`UnicodeDecodeError` raised while encoding values. -/
inductive RunErr : Type where
  | fatal : PyExc → RunErr
  | encodingError : List Nat → RunErr

/-- The `TypeError` Python 2 raises when line 108 calls the `None` returned
by a failed lookup.  It is raised at the engine call site, so its traceback
holds exactly the one engine entry that line 188 drops. -/
def typeErrorNotCallable : PyExc :=
  { kind := .typeError,
    msg := s2c "\x27NoneType\x27 object is not callable",
    tb := [[]] }

/-- The `except:` arm of lines 109-111 followed by line 115: build the FAIL
result through `_get_error_details`, or let a fatal re-raise / encoding
error escape.  `writes` is the buffer contents at the moment the exception
is handled.  Note line 163: on the fatal path stdout is restored before the
re-raise; on the `encFail` path the `ValueError` escapes before line 115
runs, leaving the interception buffer installed. -/
def failOutcome (e : PyExc) (writes : List Nat) :
    Except RunErr KwResult × StdoutTarget :=
  match _get_error_details e with
  | .reraise => (.error (.fatal e), .console)
  | .encFail m => (.error (.encodingError m), .buffer writes)
  | .details errv tb =>
      (.ok { status := s2c "FAIL", ret := .str [],
             output := _restore_stdout writes,
             error := errv, traceback := .str tb }, .console)

/-- Lines 103-116, `run_keyword(name, args, kwargs)`.  The incoming `sout`
is whatever `sys.stdout` held before the call; `_intercept_stdout` replaces
it with a fresh buffer, so the keyword's writes are exactly the buffer
contents afterwards.  On the PASS path, `_handle_return_value` runs before
stdout is restored (line 114 precedes line 115), so an encoding error
escapes with the buffer still installed. -/
def run_keyword (lib : Library) (stopB : Routine) (name : List Nat)
    (args : List PyVal) (kwargs : List (List Nat × PyVal))
    (sout : StdoutTarget) : Except RunErr KwResult × StdoutTarget :=
  let p := _handle_binary_args args kwargs
  let _ := _intercept_stdout sout
  match _get_keyword lib stopB name with
  | none => failOutcome typeErrorNotCallable []
  | some kw =>
      let c := kw.call p.1 p.2
      match c.outcome with
      | .exc e => failOutcome e c.writes
      | .ret v =>
          match _handle_return_value v with
          | .error m => (.error (.encodingError m), .buffer c.writes)
          | .ok rv =>
              (.ok { status := s2c "PASS", ret := rv,
                     output := _restore_stdout c.writes,
                     error := .str [], traceback := .str [] }, .console)

/-- Observer: the text this invocation writes to the intercepted stdout. -/
def kwWrites (lib : Library) (stopB : Routine) (name : List Nat)
    (args : List PyVal) (kwargs : List (List Nat × PyVal)) : List Nat :=
  let p := _handle_binary_args args kwargs
  match _get_keyword lib stopB name with
  | none => []
  | some kw => (kw.call p.1 p.2).writes

/-- Observer: the exception the invoked operation itself raises, if any
(the engine-made `TypeError` of a failed lookup is not included). -/
def kwRaised (lib : Library) (stopB : Routine) (name : List Nat)
    (args : List PyVal) (kwargs : List (List Nat × PyVal)) : Option PyExc :=
  let p := _handle_binary_args args kwargs
  match _get_keyword lib stopB name with
  | none => Option.none
  | some kw =>
      match (kw.call p.1 p.2).outcome with
      | .ret _ => Option.none
      | .exc e => some e

/-- The server state read and written by `stop_remote_server`
(`self._allow_stop`, `self._shutdown`). -/
structure ServerState : Type where
  allow_stop : Bool
  shutdown : Bool
deriving DecidableEq

/-- Lines 84-91, `stop_remote_server()`: the logging side effect is not
modelled; the returned boolean and the state update are. -/
def stop_remote_server (st : ServerState) : Bool × ServerState :=
  if st.allow_stop then (true, { st with shutdown := true })
  else (true, st)

/-- Line 81 loop condition: the server keeps serving while `_shutdown` is
false. -/
def serving (st : ServerState) : Bool := !st.shutdown

/-- A value a text-bearing result field may hold without carrying raw
control bytes: plain text free of the `BINARY` class, or a tagged blob. -/
def fieldWireSafe : PyVal → Bool
  | .str bs => !hasBinary bs
  | .unicode cs => !hasBinary cs
  | .binary _ => true
  | _ => false

/-- Shape of `_handle_binary_result` / `_str` outputs: control-free text,
a tagged blob, or the empty `str` literal from `_str(None)`. -/
def encText : PyVal → Bool
  | .unicode cs => !hasBinary cs
  | .binary _ => true
  | .str bs => bs.isEmpty
  | _ => false

/- Recursively wire-encoded values, the shape `_handle_return_value`
produces. -/
mutual
def encodedVal : PyVal → Bool
  | .unicode cs => !hasBinary cs
  | .binary _ => true
  | .str bs => bs.isEmpty
  | .bool _ => true
  | .int _ => true
  | .list l => encValList l
  | .dict kvs => encValDict kvs
  | .none => false
  | .obj _ => false

def encValList : List PyVal → Bool
  | [] => true
  | v :: rest => encodedVal v && encValList rest

def encValDict : List (PyVal × PyVal) → Bool
  | [] => true
  | (k, v) :: rest => encText k && encodedVal v && encValDict rest
end

/-- Bool test for one byte sequence occurring inside another. -/
def seqStarts : List Nat → List Nat → Bool
  | [], _ => true
  | _ :: _, [] => false
  | p :: ps, x :: xs => p == x && seqStarts ps xs

def seqInside (pat : List Nat) : List Nat → Bool
  | [] => seqStarts pat []
  | x :: xs => seqStarts pat (x :: xs) || seqInside pat xs

/-- Text content of a result field, for inspecting error messages. -/
def textOf : PyVal → List Nat
  | .str bs => bs
  | .unicode cs => cs
  | .binary bs => bs
  | _ => []

/-- Stand-in for the bound `stop_remote_server` method when only keyword
resolution is at stake: it returns `True` (line 91).  Its logging and state
mutation are modelled separately by `stop_remote_server` on `ServerState`. -/
def stopRoutine : Routine :=
  { doc := Option.none,
    call := fun _ _ => { writes := [], outcome := .ret (.bool true) } }

/-- A well-behaved keyword, writing some text and returning a plain
string. -/
def c1wKw : Routine :=
  { doc := Option.none,
    call := fun _ _ =>
      { writes := s2c "out", outcome := .ret (.unicode (s2c "ok")) } }

/-- A backing object exposing only `c1wKw`. -/
def c1wLib : Library :=
  { customKwNames := Option.none, attrs := [(s2c "k", c1wKw)],
    isModule := false, doc := Option.none }

/-- A backing object whose keyword fails with a traceback entry carrying the
raw control byte 0x01 (a source line of the failing frame may contain it). -/
def c1xLib : Library :=
  { customKwNames := Option.none,
    attrs := [(s2c "k",
      { doc := Option.none,
        call := fun _ _ =>
          { writes := [],
            outcome := .exc { kind := .custom (s2c "E"), msg := s2c "x",
                              tb := [[], [72, 1, 73]] } } })],
    isModule := false, doc := Option.none }

/-- A custom-kind failure with message `bad`. -/
def c2wExc : PyExc :=
  { kind := .custom (s2c "MyError"), msg := s2c "bad", tb := [[]] }

/-- A keyword raising `c2wExc`. -/
def c2wKw : Routine :=
  { doc := Option.none,
    call := fun _ _ => { writes := [], outcome := .exc c2wExc } }

/-- A backing object exposing only `c2wKw`. -/
def c2wLib : Library :=
  { customKwNames := Option.none, attrs := [(s2c "kw", c2wKw)],
    isModule := false, doc := Option.none }

/-- A raised `SystemExit`. -/
def c3wExc : PyExc := { kind := .systemExit, msg := [], tb := [[]] }

/-- A keyword raising `SystemExit` after writing some output. -/
def c3wKw : Routine :=
  { doc := Option.none,
    call := fun _ _ => { writes := s2c "part", outcome := .exc c3wExc } }

/-- A backing object exposing only `c3wKw`. -/
def c3wLib : Library :=
  { customKwNames := Option.none, attrs := [(s2c "f", c3wKw)],
    isModule := false, doc := Option.none }

/-- A backing object whose keyword raises a non-fatal failure with a message
that mixes a control byte and a non-ASCII code point, so the message cannot
be re-encoded as raw bytes. -/
def c3xLib : Library :=
  { customKwNames := Option.none,
    attrs := [(s2c "kw",
      { doc := Option.none,
        call := fun _ _ =>
          { writes := [],
            outcome := .exc { kind := .custom (s2c "E"), msg := [1, 200],
                              tb := [[]] } } })],
    isModule := false, doc := Option.none }

/-- A backing object exposing no keyword at all. -/
def c4xLib : Library :=
  { customKwNames := Option.none, attrs := [], isModule := false,
    doc := Option.none }

/-- A backing object that defines its own public callable named
`stop_remote_server`. -/
def c6xLib : Library :=
  { customKwNames := Option.none,
    attrs := [(stopName,
      { doc := Option.none,
        call := fun _ _ => { writes := [], outcome := .ret .none } })],
    isModule := false, doc := Option.none }

/-- First keyword of the sequential-invocation scenario: writes `first`. -/
def c7wKwA : Routine :=
  { doc := Option.none,
    call := fun _ _ => { writes := s2c "first", outcome := .ret (.int 1) } }

/-- Second keyword of the sequential-invocation scenario: writes
`second`. -/
def c7wKwB : Routine :=
  { doc := Option.none,
    call := fun _ _ => { writes := s2c "second", outcome := .ret (.int 2) } }

/-- A backing object exposing only `c7wKwA`. -/
def c7wLibA : Library :=
  { customKwNames := Option.none, attrs := [(s2c "a", c7wKwA)],
    isModule := false, doc := Option.none }

/-- A backing object exposing only `c7wKwB`. -/
def c7wLibB : Library :=
  { customKwNames := Option.none, attrs := [(s2c "b", c7wKwB)],
    isModule := false, doc := Option.none }

/-- A module backing object. -/
def c8wLib : Library :=
  { customKwNames := Option.none, attrs := [], isModule := true,
    doc := some (s2c "Module overview.") }

/-- A class-instance backing object whose `__init__` bound method carries a
docstring. -/
def c8xLib : Library :=
  { customKwNames := Option.none,
    attrs := [(s2c "__init__",
      { doc := some (s2c "Init documentation."),
        call := fun _ _ => { writes := [], outcome := .ret .none } })],
    isModule := false, doc := Option.none }

/-- `BINARY.search` distributes over concatenation. -/
theorem hasBinary_append (a b : List Nat) :
    hasBinary (a ++ b) = (hasBinary a || hasBinary b) := by
  simp [hasBinary, List.any_append]

/-- Permissive decoding cannot introduce control bytes. -/
theorem decodeReplace_safe (w : List Nat) (h : hasBinary w = false) :
    hasBinary (decodeReplace w) = false := by
  simp only [hasBinary, decodeReplace, List.any_map, List.any_eq_false,
    Function.comp] at h ⊢
  intro b hb
  by_cases hlt : b < 128
  · simpa [hlt] using h b hb
  · simp [hlt, isCtl]

/-- Restoring stdout is exactly `_handle_binary_result` on the captured
byte string, which never raises on a `str`. -/
theorem restore_stdout_spec (w : List Nat) :
    _handle_binary_result (.str w) = .ok (_restore_stdout w) := by
  unfold _handle_binary_result _restore_stdout
  by_cases h : hasBinary w <;> simp [h]

/-- The encoded captured output never carries raw control bytes. -/
theorem fieldWireSafe_restore (w : List Nat) :
    fieldWireSafe (_restore_stdout w) = true := by
  unfold _restore_stdout
  by_cases h : hasBinary w
  · simp [h, fieldWireSafe]
  · have hf : hasBinary w = false := by simpa using h
    simp [hf, fieldWireSafe, decodeReplace_safe w hf]

/-- Successful outputs of `_handle_binary_result` have the encoded-text
shape. -/
theorem hbr_encText (s : PyStr) (v : PyVal)
    (h : _handle_binary_result s = .ok v) : encText v = true := by
  cases s with
  | str bs =>
      unfold _handle_binary_result at h
      by_cases hb : hasBinary bs <;> simp [hb] at h <;> subst h <;>
        simp [encText, decodeReplace_safe bs, hb]
  | unicode cs =>
      unfold _handle_binary_result at h
      by_cases hb : hasBinary cs
      · by_cases ha : cs.all (fun c => c < 128) <;> simp [hb, ha] at h
        subst h; simp [encText]
      · simp [hb] at h; subst h; simp [encText, hb]

/-- Successful outputs of `_str` have the encoded-text shape. -/
theorem str_encText (x : PyVal) (v : PyVal) (h : _str x = .ok v) :
    encText v = true := by
  cases x with
  | none => unfold _str at h; simp at h; subst h; simp [encText]
  | str bs => unfold _str at h; exact hbr_encText _ _ h
  | unicode cs => unfold _str at h; exact hbr_encText _ _ h
  | binary bs =>
      unfold _str at h
      by_cases ha : bs.all (fun b => b < 128) <;> simp [ha] at h
      exact hbr_encText _ _ h
  | bool b => unfold _str at h; exact hbr_encText _ _ h
  | int n => unfold _str at h; exact hbr_encText _ _ h
  | obj r => unfold _str at h; exact hbr_encText _ _ h
  | list l => unfold _str at h; exact hbr_encText _ _ h
  | dict d => unfold _str at h; exact hbr_encText _ _ h

/-- Encoded text fragments are recursively encoded values. -/
theorem encText_encodedVal (v : PyVal) (h : encText v = true) :
    encodedVal v = true := by
  cases v <;> simp [encText, encodedVal] at h ⊢ <;> exact h

theorem pyval_sizeOf_pos (v : PyVal) : 0 < sizeOf v := by
  cases v <;> simp

theorem list_sizeOf_pos {α : Type} [SizeOf α] (l : List α) : 0 < sizeOf l := by
  cases l <;> simp

/-- Every successful output of the recursive return-value encoder (and of
its list / dict helpers) is recursively wire-encoded, by strong induction
on the size of the input value. -/
theorem hrv_enc_aux : ∀ n : Nat,
    (∀ v, sizeOf v ≤ n → ∀ r, _handle_return_value v = .ok r →
      encodedVal r = true) ∧
    (∀ l, sizeOf l ≤ n → ∀ rs, hrvList l = .ok rs → encValList rs = true) ∧
    (∀ kvs, sizeOf kvs ≤ n → ∀ rs, hrvDict kvs = .ok rs →
      encValDict rs = true) := by
  intro n
  induction n with
  | zero =>
      refine ⟨fun v hv => absurd hv (by have := pyval_sizeOf_pos v; omega),
              fun l hl => absurd hl (by have := list_sizeOf_pos l; omega),
              fun kvs hk => absurd hk (by have := list_sizeOf_pos kvs; omega)⟩
  | succ n ih =>
      refine ⟨?_, ?_, ?_⟩
      · intro v hv r hr
        cases v with
        | str bs =>
            unfold _handle_return_value at hr
            exact encText_encodedVal r (hbr_encText _ _ hr)
        | unicode cs =>
            unfold _handle_return_value at hr
            exact encText_encodedVal r (hbr_encText _ _ hr)
        | bool b =>
            unfold _handle_return_value at hr
            simp at hr; subst hr; simp [encodedVal]
        | int m =>
            unfold _handle_return_value at hr
            simp at hr; subst hr; simp [encodedVal]
        | none =>
            unfold _handle_return_value at hr
            exact encText_encodedVal r (str_encText _ _ hr)
        | obj o =>
            unfold _handle_return_value at hr
            exact encText_encodedVal r (str_encText _ _ hr)
        | binary bs =>
            unfold _handle_return_value at hr
            exact encText_encodedVal r (str_encText _ _ hr)
        | list items =>
            unfold _handle_return_value at hr
            cases hd : hrvList items with
            | error m => rw [hd] at hr; cases hr
            | ok rs =>
                rw [hd] at hr; simp at hr; subst hr
                have hsz : sizeOf items ≤ n := by
                  simp at hv; omega
                simpa [encodedVal] using ih.2.1 items hsz rs hd
        | dict kvs =>
            unfold _handle_return_value at hr
            cases hd : hrvDict kvs with
            | error m => rw [hd] at hr; cases hr
            | ok rs =>
                rw [hd] at hr; simp at hr; subst hr
                have hsz : sizeOf kvs ≤ n := by
                  simp at hv; omega
                simpa [encodedVal] using ih.2.2 kvs hsz rs hd
      · intro l hl rs hr
        cases l with
        | nil => unfold hrvList at hr; simp at hr; subst hr; simp [encValList]
        | cons v rest =>
            unfold hrvList at hr
            cases h1 : _handle_return_value v with
            | error m => rw [h1] at hr; cases hr
            | ok r1 =>
                rw [h1] at hr
                cases h2 : hrvList rest with
                | error m => rw [h2] at hr; cases hr
                | ok rs1 =>
                    rw [h2] at hr; simp at hr; subst hr
                    have hv : sizeOf v ≤ n := by simp at hl; omega
                    have hrest : sizeOf rest ≤ n := by
                      have := list_sizeOf_pos rest
                      have := pyval_sizeOf_pos v
                      simp at hl; omega
                    simp [encValList, ih.1 v hv r1 h1, ih.2.1 rest hrest rs1 h2]
      · intro kvs hk rs hr
        cases kvs with
        | nil => unfold hrvDict at hr; simp at hr; subst hr; simp [encValDict]
        | cons kv rest =>
            obtain ⟨k, v⟩ := kv
            unfold hrvDict at hr
            cases h0 : _str k with
            | error m => rw [h0] at hr; cases hr
            | ok k2 =>
                rw [h0] at hr
                cases h1 : _handle_return_value v with
                | error m => rw [h1] at hr; cases hr
                | ok r1 =>
                    rw [h1] at hr
                    cases h2 : hrvDict rest with
                    | error m => rw [h2] at hr; cases hr
                    | ok rs1 =>
                        rw [h2] at hr; simp at hr; subst hr
                        have hv : sizeOf v ≤ n := by simp at hk; omega
                        have hrest : sizeOf rest ≤ n := by
                          have := pyval_sizeOf_pos k
                          simp at hk; omega
                        simp [encValDict, str_encText k k2 h0,
                          ih.1 v hv r1 h1, ih.2.2 rest hrest rs1 h2]

/-- Every successful output of the return-value encoder is recursively
wire-encoded. -/
theorem hrv_encodedVal (v r : PyVal) (h : _handle_return_value v = .ok r) :
    encodedVal r = true :=
  (hrv_enc_aux (sizeOf v)).1 v (Nat.le_refl _) r h

/-- A fatal exception makes `failOutcome` restore stdout and re-raise. -/
theorem failOutcome_fatal (e : PyExc) (w : List Nat)
    (hf : isFatal e.kind = true) :
    failOutcome e w = (.error (.fatal e), .console) := by
  unfold failOutcome _get_error_details
  simp [hf]

/-- With a non-fatal exception whose message is free of control bytes,
`failOutcome` builds the FAIL result exactly as lines 168-175 format it. -/
theorem failOutcome_eq (e : PyExc) (w : List Nat)
    (hnf : isFatal e.kind = false) (hmsg : hasBinary e.msg = false) :
    failOutcome e w =
      (.ok { status := s2c "FAIL", ret := .str [],
             output := _restore_stdout w,
             error := if e.msg.isEmpty then .str (excName e.kind)
                      else if isGeneric e.kind then .unicode e.msg
                      else .unicode (excName e.kind ++ s2c ": " ++ e.msg),
             traceback := .str (_get_error_traceback e.tb) }, .console) := by
  unfold failOutcome _get_error_details _get_error_message
    _get_message_from_exception _handle_binary_result
  simp only [hnf, hmsg, Bool.false_eq_true, if_false, Bool.not_false, if_true]
  by_cases he : e.msg.isEmpty
  · simp [he, pyFalsy]
  · by_cases hg : isGeneric e.kind
    · simp [he, hg, pyFalsy]
    · simp [he, hg, pyFalsy, fmtNameMsg]

/-- With a non-fatal exception whose message can be wire-encoded at all
(no control bytes, or representable as raw ASCII bytes), `failOutcome`
always yields a FAIL result. -/
theorem failOutcome_ok_of_encodable (e : PyExc) (w : List Nat)
    (hnf : isFatal e.kind = false)
    (henc : hasBinary e.msg = false ∨ e.msg.all (fun c => c < 128) = true) :
    ∃ r, failOutcome e w = (.ok r, .console) ∧ r.status = s2c "FAIL" ∧
      r.ret = .str [] := by
  rcases henc with hmsg | hall
  · exact ⟨_, failOutcome_eq e w hnf hmsg, rfl, rfl⟩
  · by_cases hmsg : hasBinary e.msg
    · unfold failOutcome _get_error_details _get_error_message
        _get_message_from_exception _handle_binary_result
      simp only [hnf, hmsg, hall, Bool.false_eq_true, if_false,
        Bool.not_true, if_true]
      by_cases hg : isGeneric e.kind
      · exact ⟨{ status := s2c "FAIL", ret := .str [],
                 output := _restore_stdout w, error := .binary e.msg,
                 traceback := .str (_get_error_traceback e.tb) },
               by simp [hg, pyFalsy], rfl, rfl⟩
      · exact ⟨{ status := s2c "FAIL", ret := .str [],
                 output := _restore_stdout w,
                 error := fmtNameMsg (excName e.kind) (.binary e.msg),
                 traceback := .str (_get_error_traceback e.tb) },
               by simp [hg, pyFalsy], rfl, rfl⟩
    · exact ⟨_, failOutcome_eq e w hnf (by simpa using hmsg), rfl, rfl⟩

/-- Every result-returning run restores the console and assigns the
wire-encoded capture of this very call to `output`. -/
theorem runOk_output (lib : Library) (stopB : Routine) (name : List Nat)
    (args : List PyVal) (kwargs : List (List Nat × PyVal))
    (sout : StdoutTarget) (r : KwResult) (s2 : StdoutTarget)
    (h : run_keyword lib stopB name args kwargs sout = (.ok r, s2)) :
    s2 = .console ∧
    r.output = _restore_stdout (kwWrites lib stopB name args kwargs) := by
  unfold run_keyword at h
  unfold kwWrites
  cases hget : _get_keyword lib stopB name with
  | none =>
      rw [hget] at h
      simp only at h
      rw [failOutcome_eq typeErrorNotCallable [] (by decide) (by decide)] at h
      simp at h
      obtain ⟨h1, h2⟩ := h
      subst h1; subst h2
      exact ⟨rfl, rfl⟩
  | some kw =>
      rw [hget] at h
      simp only at h
      cases hc : (kw.call (_handle_binary_args args kwargs).1
          (_handle_binary_args args kwargs).2).outcome with
      | ret v =>
          rw [hc] at h
          simp only at h
          cases hv : _handle_return_value v with
          | error m => rw [hv] at h; simp at h
          | ok rv =>
              rw [hv] at h
              simp at h
              obtain ⟨h1, h2⟩ := h
              subst h1; subst h2
              exact ⟨rfl, rfl⟩
      | exc e =>
          rw [hc] at h
          simp only at h
          unfold failOutcome at h
          cases hd : _get_error_details e with
          | reraise => rw [hd] at h; simp at h
          | encFail m => rw [hd] at h; simp at h
          | details errv tb =>
              rw [hd] at h
              simp at h
              obtain ⟨h1, h2⟩ := h
              subst h1; subst h2
              exact ⟨rfl, rfl⟩

/-- C5: a byte string containing a control byte such as 0x01 is encoded by
the return-value encoder as an explicitly tagged binary blob; the inbound
binary-argument decoder maps that blob back to the very same byte string
(decode after encode is the identity on binary-classified byte strings);
and a text value containing such control bytes that cannot be represented
as raw bytes makes encoding a hard failure (a raised `ValueError`). -/
theorem C5_binary_roundtrip (bs cs : List Nat)
    (hb : hasBinary bs = true) (hc : hasBinary cs = true)
    (hcx : cs.all (fun c => c < 128) = false) :
    _handle_binary_result (.str bs) = .ok (.binary bs) ∧
    _handle_binary_arg (.binary bs) = .str bs ∧
    _handle_binary_result (.unicode cs) = .error (valueErrorMsg cs) := by
  refine ⟨?_, rfl, ?_⟩ <;> simp [_handle_binary_result, hb, hc, hcx]

/-- Witness for C5 at the concrete byte strings `[0x01, 0x41]` and
`[0x01, 0xC8]`. -/
theorem C5_binary_roundtrip_witness :
    (hasBinary [1, 65] = true ∧ hasBinary [1, 200] = true ∧
      List.all [1, 200] (fun c => c < 128) = false) ∧
    (_handle_binary_result (.str [1, 65]) = .ok (.binary [1, 65]) ∧
     _handle_binary_arg (.binary [1, 65]) = .str [1, 65] ∧
     _handle_binary_result (.unicode [1, 200]) =
       .error (valueErrorMsg [1, 200])) :=
  ⟨⟨by decide, by decide, by decide⟩,
   C5_binary_roundtrip [1, 65] [1, 200] (by decide) (by decide) (by decide)⟩

/-- C6 (amended): `get_keyword_names` appends the reserved control name
unconditionally, so the reserved name occurs exactly once more than it
occurs among the names enumerated from the backing object — exactly once
for a non-colliding object, twice when the object itself exposes a public
callable named `stop_remote_server`. -/
theorem C6_stop_name_appended_once (lib : Library) :
    (get_keyword_names lib).count stopName =
      (enumerated_names lib).count stopName + 1 := by
  unfold get_keyword_names
  simp [List.count_append]

/-- Counterexample for C6 as stated: a backing object defining its own
public callable named `stop_remote_server` makes the list contain the
reserved name twice, not exactly once. -/
theorem C6_counterexample :
    (get_keyword_names c6xLib).count stopName = 2 ∧
    ¬ (get_keyword_names c6xLib).count stopName = 1 := by
  constructor <;> decide

/-- C8 (amended): `get_keyword_documentation` applied to `__init__` returns
the empty string only when the backing object is a module; for any other
backing object the name is resolved like every other keyword, so the
initializer's own documentation is returned. -/
theorem C8_init_documentation (lib : Library) (stopB : Routine) :
    (lib.isModule = true →
      get_keyword_documentation lib stopB (s2c "__init__") = []) ∧
    (lib.isModule = false →
      get_keyword_documentation lib stopB (s2c "__init__") =
        (match _get_keyword lib stopB (s2c "__init__") with
         | some kw => kw.doc.getD []
         | none => [])) := by
  unfold get_keyword_documentation
  constructor <;> intro h <;>
    rw [if_neg (by decide)] <;>
    simp [h]

/-- Witness for C8 with a module backing object and a class-instance
backing object. -/
theorem C8_init_documentation_witness :
    (c8wLib.isModule = true →
      get_keyword_documentation c8wLib stopRoutine (s2c "__init__") = []) ∧
    (c8wLib.isModule = false →
      get_keyword_documentation c8wLib stopRoutine (s2c "__init__") =
        (match _get_keyword c8wLib stopRoutine (s2c "__init__") with
         | some kw => kw.doc.getD []
         | none => [])) :=
  C8_init_documentation c8wLib stopRoutine

/-- Counterexample for C8 as stated: for a class-instance backing object
whose initializer carries a docstring, the special name does not yield the
empty string but that docstring. -/
theorem C8_counterexample :
    get_keyword_documentation c8xLib stopRoutine (s2c "__init__") =
      s2c "Init documentation." ∧
    ¬ get_keyword_documentation c8xLib stopRoutine (s2c "__init__") = [] := by
  constructor
  · rfl
  · rw [show get_keyword_documentation c8xLib stopRoutine (s2c "__init__") =
        s2c "Init documentation." from rfl]
    decide

/-- C9: the stop operation always acknowledges with `True`; with stopping
disallowed the server state is left unchanged (it keeps serving), with
stopping allowed the shutdown flag is set so the request loop exits. -/
theorem C9_stop_ack (st : ServerState) :
    (stop_remote_server st).1 = true ∧
    (st.allow_stop = false → (stop_remote_server st).2 = st ∧
      serving (stop_remote_server st).2 = serving st) ∧
    (st.allow_stop = true → (stop_remote_server st).2.shutdown = true) := by
  unfold stop_remote_server
  by_cases h : st.allow_stop <;> simp [h, serving]

/-- Witness for C9 at both concrete server states. -/
theorem C9_stop_ack_witness :
    ((stop_remote_server { allow_stop := false, shutdown := false }).1 = true ∧
     ({ allow_stop := false, shutdown := false : ServerState }.allow_stop
        = false →
      (stop_remote_server { allow_stop := false, shutdown := false }).2 =
        { allow_stop := false, shutdown := false } ∧
      serving (stop_remote_server
        { allow_stop := false, shutdown := false }).2 =
        serving { allow_stop := false, shutdown := false }) ∧
     ({ allow_stop := false, shutdown := false : ServerState }.allow_stop
        = true →
      (stop_remote_server
        { allow_stop := false, shutdown := false }).2.shutdown = true)) ∧
    ((stop_remote_server { allow_stop := true, shutdown := false }).1 = true ∧
     ({ allow_stop := true, shutdown := false : ServerState }.allow_stop
        = false →
      (stop_remote_server { allow_stop := true, shutdown := false }).2 =
        { allow_stop := true, shutdown := false } ∧
      serving (stop_remote_server
        { allow_stop := true, shutdown := false }).2 =
        serving { allow_stop := true, shutdown := false }) ∧
     ({ allow_stop := true, shutdown := false : ServerState }.allow_stop
        = true →
      (stop_remote_server
        { allow_stop := true, shutdown := false }).2.shutdown = true)) :=
  ⟨C9_stop_ack { allow_stop := false, shutdown := false },
   C9_stop_ack { allow_stop := true, shutdown := false }⟩

/-- C10: a boolean returned by a keyword is passed through unchanged by the
recursive return-value encoder, via the numeric-scalar branch (`bool` is a
subclass of `int` in Python 2), so the `return` field holds the boolean
itself and not its text coercion. -/
theorem C10_bool_passthrough (b : Bool) :
    _handle_return_value (.bool b) = .ok (.bool b) := by
  unfold _handle_return_value
  rfl

/-- Dispatch lemma: a failed lookup makes `run_keyword` handle the
`TypeError` raised by calling `None`, with nothing captured. -/
theorem run_keyword_none_eq (lib : Library) (stopB : Routine)
    (name : List Nat) (args : List PyVal)
    (kwargs : List (List Nat × PyVal)) (sout : StdoutTarget)
    (hkw : _get_keyword lib stopB name = Option.none) :
    run_keyword lib stopB name args kwargs sout =
      failOutcome typeErrorNotCallable [] := by
  unfold run_keyword
  simp only [hkw]

/-- Dispatch lemma: an exception raised by the resolved keyword is handled
by `failOutcome` with the captured writes of this call. -/
theorem run_keyword_exc_eq (lib : Library) (stopB : Routine)
    (name : List Nat) (args : List PyVal)
    (kwargs : List (List Nat × PyVal)) (sout : StdoutTarget)
    (kw : Routine) (e : PyExc)
    (hkw : _get_keyword lib stopB name = some kw)
    (hout : (kw.call (_handle_binary_args args kwargs).1
        (_handle_binary_args args kwargs).2).outcome = .exc e) :
    run_keyword lib stopB name args kwargs sout =
      failOutcome e (kw.call (_handle_binary_args args kwargs).1
        (_handle_binary_args args kwargs).2).writes := by
  unfold run_keyword
  simp only [hkw, hout]

/-- Dispatch lemma: a normal return is wire-encoded; an encoding failure
escapes before stdout is restored. -/
theorem run_keyword_ret_eq (lib : Library) (stopB : Routine)
    (name : List Nat) (args : List PyVal)
    (kwargs : List (List Nat × PyVal)) (sout : StdoutTarget)
    (kw : Routine) (v : PyVal)
    (hkw : _get_keyword lib stopB name = some kw)
    (hout : (kw.call (_handle_binary_args args kwargs).1
        (_handle_binary_args args kwargs).2).outcome = .ret v) :
    run_keyword lib stopB name args kwargs sout =
      (match _handle_return_value v with
       | .error m => (.error (.encodingError m),
           .buffer (kw.call (_handle_binary_args args kwargs).1
             (_handle_binary_args args kwargs).2).writes)
       | .ok rv =>
           (.ok { status := s2c "PASS", ret := rv,
                  output := _restore_stdout (kw.call
                    (_handle_binary_args args kwargs).1
                    (_handle_binary_args args kwargs).2).writes,
                  error := .str [], traceback := .str [] }, .console)) := by
  unfold run_keyword
  simp only [hkw, hout]

/-- C2: the `error` field of a recoverable failure is the bare message for
the generic kinds (assertion failure, generic runtime failure, catch-all),
`Kind: message` for every other kind with a non-empty message, and just the
kind name when the failure carries no message. -/
theorem C2_error_message_format (lib : Library) (stopB : Routine)
    (name : List Nat) (args : List PyVal)
    (kwargs : List (List Nat × PyVal)) (sout : StdoutTarget)
    (kw : Routine) (e : PyExc)
    (hkw : _get_keyword lib stopB name = some kw)
    (hout : (kw.call (_handle_binary_args args kwargs).1
        (_handle_binary_args args kwargs).2).outcome = .exc e)
    (hnf : isFatal e.kind = false)
    (hmsg : hasBinary e.msg = false) :
    ∃ r, run_keyword lib stopB name args kwargs sout = (.ok r, .console) ∧
      r.status = s2c "FAIL" ∧ r.ret = .str [] ∧
      r.error = (if e.msg.isEmpty then .str (excName e.kind)
                 else if isGeneric e.kind then .unicode e.msg
                 else .unicode (excName e.kind ++ s2c ": " ++ e.msg)) := by
  rw [run_keyword_exc_eq lib stopB name args kwargs sout kw e hkw hout]
  rw [failOutcome_eq e _ hnf hmsg]
  exact ⟨_, rfl, rfl, rfl, rfl⟩

/-- Witness for C2 at the custom-kind failure `MyError: bad`. -/
theorem C2_error_message_format_witness :
    (_get_keyword c2wLib stopRoutine (s2c "kw") = some c2wKw ∧
     (c2wKw.call (_handle_binary_args [] []).1
         (_handle_binary_args [] []).2).outcome = .exc c2wExc ∧
     isFatal c2wExc.kind = false ∧ hasBinary c2wExc.msg = false) ∧
    (∃ r, run_keyword c2wLib stopRoutine (s2c "kw") [] [] .console =
        (.ok r, .console) ∧
      r.status = s2c "FAIL" ∧ r.ret = .str [] ∧
      r.error = (if c2wExc.msg.isEmpty then .str (excName c2wExc.kind)
                 else if isGeneric c2wExc.kind then .unicode c2wExc.msg
                 else .unicode (excName c2wExc.kind ++ s2c ": " ++
                   c2wExc.msg))) :=
  ⟨⟨rfl, rfl, by decide, by decide⟩,
   C2_error_message_format c2wLib stopRoutine (s2c "kw") [] [] .console
     c2wKw c2wExc rfl rfl (by decide) (by decide)⟩

/-- C3 (amended): a fatal failure (`SystemExit`, `KeyboardInterrupt`) is
never converted into a result — stdout is restored and the same failure
re-raised; a non-fatal failure is caught and converted into a FAIL result
whenever its message can be wire-encoded at all, while a message that can
neither be kept as text nor re-encoded as raw bytes makes the conversion
itself raise a `ValueError` that escapes instead. -/
theorem C3_fatal_reraise (lib : Library) (stopB : Routine)
    (name : List Nat) (args : List PyVal)
    (kwargs : List (List Nat × PyVal)) (sout : StdoutTarget)
    (kw : Routine) (e : PyExc)
    (hkw : _get_keyword lib stopB name = some kw)
    (hout : (kw.call (_handle_binary_args args kwargs).1
        (_handle_binary_args args kwargs).2).outcome = .exc e) :
    (isFatal e.kind = true →
      run_keyword lib stopB name args kwargs sout =
        (.error (.fatal e), .console)) ∧
    (isFatal e.kind = false →
      (hasBinary e.msg = false ∨ e.msg.all (fun c => c < 128) = true) →
      ∃ r, run_keyword lib stopB name args kwargs sout =
          (.ok r, .console) ∧ r.status = s2c "FAIL") := by
  rw [run_keyword_exc_eq lib stopB name args kwargs sout kw e hkw hout]
  constructor
  · intro hf
    rw [failOutcome_fatal e _ hf]
  · intro hnf henc
    obtain ⟨r, hr, hs, _⟩ := failOutcome_ok_of_encodable e _ hnf henc
    exact ⟨r, hr, hs⟩

/-- Witness for C3 at a concrete `SystemExit`-raising keyword. -/
theorem C3_fatal_reraise_witness :
    (_get_keyword c3wLib stopRoutine (s2c "f") = some c3wKw ∧
     (c3wKw.call (_handle_binary_args [] []).1
         (_handle_binary_args [] []).2).outcome = .exc c3wExc) ∧
    ((isFatal c3wExc.kind = true →
      run_keyword c3wLib stopRoutine (s2c "f") [] [] .console =
        (.error (.fatal c3wExc), .console)) ∧
     (isFatal c3wExc.kind = false →
      (hasBinary c3wExc.msg = false ∨
        c3wExc.msg.all (fun c => c < 128) = true) →
      ∃ r, run_keyword c3wLib stopRoutine (s2c "f") [] [] .console =
          (.ok r, .console) ∧ r.status = s2c "FAIL")) :=
  ⟨⟨rfl, rfl⟩,
   C3_fatal_reraise c3wLib stopRoutine (s2c "f") [] [] .console
     c3wKw c3wExc rfl rfl⟩

/-- Counterexample for C3 as stated: a non-fatal failure whose message
holds a control byte and a non-ASCII code point is not converted into a
FAIL result — the encoding `ValueError` escapes `run_keyword` (with the
interception buffer still installed). -/
theorem C3_counterexample :
    isFatal (ExcType.custom (s2c "E")) = false ∧
    run_keyword c3xLib stopRoutine (s2c "kw") [] [] .console =
      (.error (.encodingError (valueErrorMsg [1, 200])), .buffer []) :=
  ⟨by decide, by constructor⟩

/-- C4 (amended): a request for an operation name that resolves to nothing
does not propagate a failure — `run_keyword` returns a FAIL result — but
its `error` field is the text of the `TypeError` raised by calling `None`
(`TypeError: 'NoneType' object is not callable`), not a message stating
the operation was not found. -/
theorem C4_unknown_keyword (lib : Library) (stopB : Routine)
    (name : List Nat) (args : List PyVal)
    (kwargs : List (List Nat × PyVal)) (sout : StdoutTarget)
    (hkw : _get_keyword lib stopB name = Option.none) :
    run_keyword lib stopB name args kwargs sout =
      (.ok { status := s2c "FAIL", ret := .str [],
             output := .unicode [],
             error := .unicode
               (s2c "TypeError: \x27NoneType\x27 object is not callable"),
             traceback := .str
               (s2c "Traceback (most recent call last):\x0A") },
       .console) := by
  rw [run_keyword_none_eq lib stopB name args kwargs sout hkw]
  rfl

/-- Witness for C4 at a backing object with no keywords. -/
theorem C4_unknown_keyword_witness :
    _get_keyword c4xLib stopRoutine (s2c "undefined_kw") = Option.none ∧
    run_keyword c4xLib stopRoutine (s2c "undefined_kw") [] [] .console =
      (.ok { status := s2c "FAIL", ret := .str [],
             output := .unicode [],
             error := .unicode
               (s2c "TypeError: \x27NoneType\x27 object is not callable"),
             traceback := .str
               (s2c "Traceback (most recent call last):\x0A") },
       .console) :=
  ⟨rfl,
   C4_unknown_keyword c4xLib stopRoutine (s2c "undefined_kw") [] []
     .console rfl⟩

/-- Counterexample for C4 as stated: the FAIL result is produced, but its
error text mentions neither `not found` nor the requested operation name —
it does not state that the operation was not found. -/
theorem C4_counterexample :
    (run_keyword c4xLib stopRoutine (s2c "undefined_kw") [] []
        .console).1.map (fun r => r.status) = .ok (s2c "FAIL") ∧
    (run_keyword c4xLib stopRoutine (s2c "undefined_kw") [] []
        .console).1.map
      (fun r => seqInside (s2c "not found") (textOf r.error) ||
        seqInside (s2c "undefined_kw") (textOf r.error)) = .ok false :=
  ⟨rfl, rfl⟩

/-- C7: every invocation ending in PASS or recoverable FAIL restores the
console before returning and sets `output` to exactly the wire-encoding of
the text this one call wrote; hence for two sequential invocations each
`output` is the encoding of its own call's writes only, with no leakage
across calls. -/
theorem C7_output_isolation (libA : Library) (stopA : Routine)
    (nameA : List Nat) (argsA : List PyVal)
    (kwargsA : List (List Nat × PyVal)) (libB : Library) (stopC : Routine)
    (nameB : List Nat) (argsB : List PyVal)
    (kwargsB : List (List Nat × PyVal)) (sout : StdoutTarget)
    (rA : KwResult) (sA : StdoutTarget) (rB : KwResult) (sB : StdoutTarget)
    (h1 : run_keyword libA stopA nameA argsA kwargsA sout = (.ok rA, sA))
    (h2 : run_keyword libB stopC nameB argsB kwargsB sA = (.ok rB, sB)) :
    sA = .console ∧ sB = .console ∧
    rA.output = _restore_stdout (kwWrites libA stopA nameA argsA kwargsA) ∧
    rB.output = _restore_stdout (kwWrites libB stopC nameB argsB kwargsB) := by
  obtain ⟨hA1, hA2⟩ := runOk_output libA stopA nameA argsA kwargsA sout rA sA h1
  obtain ⟨hB1, hB2⟩ := runOk_output libB stopC nameB argsB kwargsB sA rB sB h2
  exact ⟨hA1, hB1, hA2, hB2⟩

/-- Witness for C7: two concrete sequential invocations, the first writing
`first`, the second `second`; each output is the encoding of its own
writes. -/
theorem C7_output_isolation_witness :
    (run_keyword c7wLibA stopRoutine (s2c "a") [] [] .console =
      (.ok { status := s2c "PASS", ret := .int 1,
             output := .unicode (s2c "first"), error := .str [],
             traceback := .str [] }, .console) ∧
     run_keyword c7wLibB stopRoutine (s2c "b") [] [] .console =
      (.ok { status := s2c "PASS", ret := .int 2,
             output := .unicode (s2c "second"), error := .str [],
             traceback := .str [] }, .console)) ∧
    (StdoutTarget.console = .console ∧ StdoutTarget.console = .console ∧
     PyVal.unicode (s2c "first") =
       _restore_stdout (kwWrites c7wLibA stopRoutine (s2c "a") [] []) ∧
     PyVal.unicode (s2c "second") =
       _restore_stdout (kwWrites c7wLibB stopRoutine (s2c "b") [] [])) :=
  ⟨⟨rfl, rfl⟩,
   C7_output_isolation c7wLibA stopRoutine (s2c "a") [] []
     c7wLibB stopRoutine (s2c "b") [] [] .console
     { status := s2c "PASS", ret := .int 1,
       output := .unicode (s2c "first"), error := .str [],
       traceback := .str [] } .console
     { status := s2c "PASS", ret := .int 2,
       output := .unicode (s2c "second"), error := .str [],
       traceback := .str [] } .console rfl rfl⟩

/-- C1 (amended): for every invocation returning a result, the `output`
field is wire-safety encoded and the `return` field is recursively
wire-encoded; the `error` field is wire-safe provided the failure's kind
name and message are control-byte-free (a `Kind: message` formatting of a
binary message would re-embed raw bytes).  The `traceback` field is the
raw formatted trace and is not passed through the wire-safety encoding,
which the claim's counterexample exhibits. -/
theorem C1_fields_wire_encoded (lib : Library) (stopB : Routine)
    (name : List Nat) (args : List PyVal)
    (kwargs : List (List Nat × PyVal)) (sout : StdoutTarget)
    (hexc : ∀ e, kwRaised lib stopB name args kwargs = some e →
      hasBinary (excName e.kind) = false ∧ hasBinary e.msg = false) :
    ∀ r s2, run_keyword lib stopB name args kwargs sout = (.ok r, s2) →
      fieldWireSafe r.output = true ∧ encodedVal r.ret = true ∧
      fieldWireSafe r.error = true := by
  intro r s2 h
  cases hget : _get_keyword lib stopB name with
  | none =>
      rw [run_keyword_none_eq lib stopB name args kwargs sout hget] at h
      rw [failOutcome_eq typeErrorNotCallable [] (by decide) (by decide)]
        at h
      simp at h
      obtain ⟨h1, _⟩ := h
      subst h1
      refine ⟨?_, ?_, ?_⟩
      · exact fieldWireSafe_restore []
      · rfl
      · rfl
  | some kw =>
      cases hc : (kw.call (_handle_binary_args args kwargs).1
          (_handle_binary_args args kwargs).2).outcome with
      | ret v =>
          rw [run_keyword_ret_eq lib stopB name args kwargs sout kw v
            hget hc] at h
          cases hv : _handle_return_value v with
          | error m => rw [hv] at h; simp at h
          | ok rv =>
              rw [hv] at h
              simp at h
              obtain ⟨h1, _⟩ := h
              subst h1
              refine ⟨?_, ?_, ?_⟩
              · exact fieldWireSafe_restore _
              · exact hrv_encodedVal v rv hv
              · rfl
      | exc e =>
          have hek : kwRaised lib stopB name args kwargs = some e := by
            unfold kwRaised
            simp only [hget, hc]
          obtain ⟨hname, hmsg⟩ := hexc e hek
          rw [run_keyword_exc_eq lib stopB name args kwargs sout kw e
            hget hc] at h
          by_cases hf : isFatal e.kind
          · rw [failOutcome_fatal e _ hf] at h; simp at h
          · have hnf : isFatal e.kind = false := by simpa using hf
            rw [failOutcome_eq e _ hnf hmsg] at h
            simp at h
            obtain ⟨h1, _⟩ := h
            subst h1
            refine ⟨?_, ?_, ?_⟩
            · exact fieldWireSafe_restore _
            · rfl
            · by_cases he : e.msg = []
              · simp [he, fieldWireSafe, hname]
              · by_cases hg : isGeneric e.kind
                · simp [he, hg, fieldWireSafe, hmsg]
                · simp [he, hg, fieldWireSafe, hasBinary_append, hname,
                    hmsg, show hasBinary (s2c ": ") = false from by decide]

/-- Witness for C1 at a concrete passing invocation that writes `out` and
returns `ok`. -/
theorem C1_fields_wire_encoded_witness :
    (∀ e, kwRaised c1wLib stopRoutine (s2c "k") [] [] = some e →
      hasBinary (excName e.kind) = false ∧ hasBinary e.msg = false) ∧
    (fieldWireSafe (PyVal.unicode (s2c "out")) = true ∧
     encodedVal (PyVal.unicode (s2c "ok")) = true ∧
     fieldWireSafe (PyVal.str []) = true) :=
  ⟨(fun e h => by
      rw [show kwRaised c1wLib stopRoutine (s2c "k") [] [] = Option.none
        from rfl] at h
      cases h),
   C1_fields_wire_encoded c1wLib stopRoutine (s2c "k") [] [] .console
     (fun e h => by
       rw [show kwRaised c1wLib stopRoutine (s2c "k") [] [] = Option.none
         from rfl] at h
       exact absurd h (by simp))
     { status := s2c "PASS", ret := .unicode (s2c "ok"),
       output := .unicode (s2c "out"), error := .str [],
       traceback := .str [] }
     .console rfl⟩

/-- Counterexample for C1 as stated: a recoverable FAIL whose traceback
entries carry the raw control byte 0x01 produces a result whose
`traceback` field is a plain (untagged) string still containing that byte
— it was not passed through the wire-safety encoding. -/
theorem C1_counterexample :
    (run_keyword c1xLib stopRoutine (s2c "k") [] [] .console).1.map
      (fun r => fieldWireSafe r.traceback) = .ok false := rfl
